import Mathlib

/-!
Shallow embedding of the `lead-processor` repository (Go) and verification of
its specification claims.

Embedded source files:
- `processor/internal/models/lead.go`   — `Lead`, `Validate`, `IsEqual`, sources
- `processor/internal/api/client.go`    — `LookupLead`, `handleRateLimit`,
  `CreateLead`, `UpdateLead`
- `processor/internal/processor/processor.go` — `ProcessLead`
- `processor/cmd` (`runProcessCommand`) — the batch orchestrator loop

Strings are Lean `String`; machine time instants are modelled as `Nat`
(the claims only compare timestamps for identity/presence); fallible Go
calls returning `(T, error)` become `Except ClientError T`; the HTTP wire
is modelled as a script `Nat → HttpAttempt` giving the result of the n-th
request attempt of one lookup call.
-/

namespace LeadProc

/-- Go `unicode.IsSpace`: the Unicode White_Space property
(`\t \n \v \f \r space U+0085 U+00A0 U+1680 U+2000..U+200A U+2028 U+2029
U+202F U+205F U+3000`). -/
def goIsSpace (c : Char) : Bool :=
  c = '\t' || c = '\n' || c.val = 11 || c.val = 12 || c = '\r' || c = ' ' ||
  c.val = 0x85 || c.val = 0xA0 || c.val = 0x1680 ||
  (0x2000 ≤ c.val && c.val ≤ 0x200A) ||
  c.val = 0x2028 || c.val = 0x2029 || c.val = 0x202F || c.val = 0x205F ||
  c.val = 0x3000

/-- Go `strings.TrimSpace`: drop leading and trailing Unicode whitespace. -/
def trimSpace (s : String) : String :=
  ⟨((s.data.dropWhile goIsSpace).reverse.dropWhile goIsSpace).reverse⟩

/-- Characters allowed in the local part of the email regex:
`[a-zA-Z0-9._%+-]` (ASCII only, as in the Go regexp character class). -/
def isLocalChar (c : Char) : Bool :=
  c.isAlpha || c.isDigit || c = '.' || c = '_' || c = '%' || c = '+' || c = '-'

/-- Characters allowed in the domain part before the final dot:
`[a-zA-Z0-9.-]`. -/
def isDomainChar (c : Char) : Bool :=
  c.isAlpha || c.isDigit || c = '.' || c = '-'

/-- Split a character list at the first occurrence of `c`:
`splitAtChar c l = some (before, after)` when `c` occurs, `none` otherwise. -/
def splitAtChar (c : Char) : List Char → Option (List Char × List Char)
  | [] => none
  | x :: xs =>
    if x = c then some ([], xs)
    else (splitAtChar c xs).map (fun p => (x :: p.1, p.2))

/-- Whole-string membership in the language of the anchored Go regexp
`^[a-zA-Z0-9._%+-]+@[a-zA-Z0-9.-]+\.[a-zA-Z]\x7b2,\x7d$`.

A string is in this language iff it decomposes as
`local ++ "@" ++ dom ++ "." ++ tld` with `local` a nonempty run of local
characters, `dom` a nonempty run of domain characters, and `tld` at least two
ASCII letters. Since none of the three classes contains `@`, a matching string
has exactly one `@`, so splitting at the first `@` is exhaustive; and since
`tld` cannot contain a dot, only the split at the LAST dot of the part after
`@` can succeed, so checking that single split decides membership. -/
def matchEmailShape (cs : List Char) : Bool :=
  match splitAtChar '@' cs with
  | none => false
  | some (lp, rest) =>
    !lp.isEmpty && lp.all isLocalChar &&
    match splitAtChar '.' rest.reverse with
    | none => false
    | some (tldRev, domRev) =>
      let tld := tldRev.reverse
      let dom := domRev.reverse
      !dom.isEmpty && dom.all isDomainChar &&
      decide (2 ≤ tld.length) && tld.all Char.isAlpha

/-- `isValidEmail` from `lead.go`: empty-after-trim strings are rejected
outright, otherwise the anchored email regexp must match the whole string. -/
def isValidEmail (email : String) : Bool :=
  if trimSpace email = "" then false
  else matchEmailShape email.data

/-- `GetValidSources` from `lead.go`. -/
def GetValidSources : List String :=
  ["LinkedIn", "Website", "Conference", "Referral", "Webinar", "Twitter"]

/-- `isValidSource` from `lead.go`: linear scan of the allow-list. -/
def isValidSource (source : String) : Bool :=
  GetValidSources.contains source

/-- `models.Lead`. `CreatedAt`/`UpdatedAt` are opaque time instants (`Nat`);
`UpdatedAt` is a nullable pointer in Go, hence `Option`. -/
structure Lead where
  ID : String
  Name : String
  Email : String
  Company : String
  Source : String
  CreatedAt : Nat
  UpdatedAt : Option Nat
deriving DecidableEq, Repr

/-- The list `validationErrors` accumulated by `Lead.Validate`, in source
order: name, email, company, source. -/
def Lead.validationErrors (l : Lead) : List String :=
  (if trimSpace l.Name = "" then ["name is required"] else []) ++
  (if !isValidEmail l.Email then ["valid email is required"] else []) ++
  (if trimSpace l.Company = "" then ["company is required"] else []) ++
  (if !isValidSource l.Source then
    ["source must be one of: " ++ String.intercalate ", " GetValidSources]
   else [])

/-- `Lead.Validate`: `none` means the Go method returned `nil`; `some msg`
is the single error joining all collected messages with `"; "`. -/
def Lead.Validate (l : Lead) : Option String :=
  let errs := l.validationErrors
  if errs.isEmpty then none
  else some (String.intercalate "; " errs)

/-- `Lead.IsEqual`: a `nil` counterpart is unequal; otherwise compare the
four business fields only. -/
def Lead.IsEqual (l : Lead) (other : Option Lead) : Bool :=
  match other with
  | none => false
  | some o =>
    l.Name = o.Name && l.Email = o.Email && l.Company = o.Company &&
    l.Source = o.Source

/-- Errors produced by the API client, one constructor per distinct
`fmt.Errorf` production in `client.go`:
- `requestTimeout` — initial GET failed and `isTimeoutError` held
  (message `request timeout: ...`);
- `requestFailed` — initial GET failed otherwise
  (`failed to make request: ...`);
- `apiStatus s` — non-200, non-429 status on the initial attempt
  (`API returned status s`);
- `decodeError` — a 200 body failed to decode (`failed to decode response`,
  both in `LookupLead` and in the retry loop);
- `failedAfterRetries n timeout` — a retried GET failed on the last retry
  (`failed after n retries: ...`, wrapping the connection error, whose
  timeout-ness we carry as a `Bool`);
- `statusAfterRetries s n` — a retried attempt returned a status neither 200
  nor retriable-429 (`API returned status s after n retries`);
- `maxRetriesExceeded` — the loop-exhaustion fallthrough
  (`max retries exceeded for rate limiting`). -/
inductive ClientError where
  | requestTimeout
  | requestFailed
  | apiStatus (s : Nat)
  | decodeError
  | failedAfterRetries (n : Nat) (timeout : Bool)
  | statusAfterRetries (s n : Nat)
  | maxRetriesExceeded
deriving DecidableEq, Repr

/-- The spec's `RateLimitExhausted` error class: the error the client returns
when the retry budget is exhausted while still being rate-limited. In the
code this is either the loop-exhaustion message or the
`API returned status 429 after n retries` error (the latter is the one
actually produced: a 429 on the last retry falls through the
`attempt < maxRetries-1` guard). -/
def ClientError.isRateLimitExhausted : ClientError → Bool
  | .maxRetriesExceeded => true
  | .statusAfterRetries s _ => s = 429
  | _ => false

/-- `api.LookupResponse` as converted to the processor's `LookupResponse`:
`Found` flag and a nullable lead. -/
structure LookupResp where
  Found : Bool
  lead : Option Lead
deriving DecidableEq, Repr

/-- The observable result of one HTTP GET attempt of a lookup call:
either the request itself fails (`connError`, carrying whether
`isTimeoutError` would classify it as a timeout), or a response arrives with
a status code and a body whose JSON decode either succeeds or fails. -/
inductive HttpAttempt where
  | connError (timeout : Bool)
  | response (status : Nat) (body : Except Unit LookupResp)

/-- `maxRetries` in `handleRateLimit`. -/
def maxRetries : Nat := 3

/-- `baseDelay` in `handleRateLimit`, in milliseconds. -/
def baseDelay : Nat := 100

/-- The `for attempt := 0; attempt < maxRetries; attempt++` loop body of
`handleRateLimit`, iterated over the remaining attempt indices. `script n`
is the result of the n-th GET of the whole lookup call, so retry `attempt`
performs request `attempt + 1`. `acc` accumulates the backoff delays slept
so far (most recent first); the returned list is in sleep order. -/
def rateLimitLoop (script : Nat → HttpAttempt) :
    List Nat → List Nat → Except ClientError LookupResp × List Nat
  | [], acc => (.error .maxRetriesExceeded, acc.reverse)
  | attempt :: rest, acc =>
    -- delay := baseDelay * 2^attempt (100ms, 200ms, 400ms); time.Sleep(delay)
    let delay := baseDelay * 2 ^ attempt
    let acc' := delay :: acc
    match script (attempt + 1) with
    | .connError t =>
      -- retried GET failed: on the last attempt surface it, else continue
      if attempt = maxRetries - 1 then
        (.error (.failedAfterRetries maxRetries t), acc'.reverse)
      else rateLimitLoop script rest acc'
    | .response status body =>
      if status = 200 then
        match body with
        | .ok r => (.ok r, acc'.reverse)
        | .error _ => (.error .decodeError, acc'.reverse)
      else if status = 429 && attempt < maxRetries - 1 then
        rateLimitLoop script rest acc'
      else
        (.error (.statusAfterRetries status (attempt + 1)), acc'.reverse)

/-- `handleRateLimit`: run the retry loop for attempts `0, 1, 2`. -/
def handleRateLimit (script : Nat → HttpAttempt) :
    Except ClientError LookupResp × List Nat :=
  rateLimitLoop script (List.range maxRetries) []

/-- `APIClient.LookupLead` over a response script. Returns the Go result
(`Except` for the `(resp, err)` pair) together with the list of backoff
delays slept, in order. The initial GET is `script 0`. -/
def lookupLead (script : Nat → HttpAttempt) :
    Except ClientError LookupResp × List Nat :=
  match script 0 with
  | .connError t =>
    ((if t then .error .requestTimeout else .error .requestFailed), [])
  | .response status body =>
    if status = 429 then handleRateLimit script
    else if status ≠ 200 then (.error (.apiStatus status), [])
    else
      match body with
      | .ok r => (.ok r, [])
      | .error _ => (.error .decodeError, [])

/-- `APIClient.CreateLead`: a stub that performs no HTTP request — it always
succeeds, returning the input's business fields under the constant id
`"generated-id"` with `CreatedAt := time.Now()` (passed as `now`) and no
`UpdatedAt`. -/
def createLead (l : Lead) (now : Nat) : Except ClientError Lead :=
  .ok { ID := "generated-id", Name := l.Name, Email := l.Email,
        Company := l.Company, Source := l.Source, CreatedAt := now,
        UpdatedAt := none }

/-- `APIClient.UpdateLead`: a stub that performs no HTTP request — it always
succeeds, returning the input lead with `UpdatedAt := &time.Now()`
(passed as `now`). -/
def updateLead (l : Lead) (now : Nat) : Except ClientError Lead :=
  .ok { ID := l.ID, Name := l.Name, Email := l.Email, Company := l.Company,
        Source := l.Source, CreatedAt := l.CreatedAt, UpdatedAt := some now }

/-- The abstract API client the processor depends on
(`processor.APIClient` interface): each operation either returns a value or
a Go error. -/
structure Client where
  lookupLead : String → Except ClientError LookupResp
  createLead : Lead → Except ClientError Lead
  updateLead : Lead → Except ClientError Lead

/-- The error stored in a `ProcessResult`: either the aggregated validation
message or an error from an API call. -/
inductive LeadError where
  | validationError (msg : String)
  | apiError (e : ClientError)
deriving DecidableEq, Repr

/-- `processor.ProcessResult`. `Action` is a free-form string in the Go
code, kept as `String` here. -/
structure ProcessResult where
  Action : String
  Lead : Lead
  CreatedLead : Option LeadProc.Lead
  UpdatedLead : Option LeadProc.Lead
  Error : Option LeadError
deriving DecidableEq, Repr

/-- Which client operation a step of `ProcessLead` invokes. -/
inductive CallTag where
  | lookup
  | create
  | update
deriving DecidableEq, Repr

/-- `LeadProcessor.ProcessLead`, instrumented: the first component is the Go
return pair `(*ProcessResult, error)` (every `return` in the source returns a
non-nil result and a nil error), the second is the ordered list of client
operations invoked along the taken control path. -/
def processLeadT (c : Client) (l : Lead) :
    (Option ProcessResult × Option LeadError) × List CallTag :=
  match l.Validate with
  | some msg =>
    ((some { Action := "VALIDATION_ERROR", Lead := l, CreatedLead := none,
             UpdatedLead := none, Error := some (.validationError msg) },
      none), [])
  | none =>
    match c.lookupLead l.Email with
    | .error e =>
      ((some { Action := "API_ERROR", Lead := l, CreatedLead := none,
               UpdatedLead := none, Error := some (.apiError e) },
        none), [.lookup])
    | .ok resp =>
      if !resp.Found then
        match c.createLead l with
        | .error e =>
          ((some { Action := "CREATE_ERROR", Lead := l, CreatedLead := none,
                   UpdatedLead := none, Error := some (.apiError e) },
            none), [.lookup, .create])
        | .ok created =>
          ((some { Action := "CREATE", Lead := l, CreatedLead := some created,
                   UpdatedLead := none, Error := none },
            none), [.lookup, .create])
      else if l.IsEqual resp.lead then
        ((some { Action := "SKIP", Lead := l, CreatedLead := none,
                 UpdatedLead := none, Error := none },
          none), [.lookup])
      else
        match c.updateLead l with
        | .error e =>
          ((some { Action := "UPDATE_ERROR", Lead := l, CreatedLead := none,
                   UpdatedLead := none, Error := some (.apiError e) },
            none), [.lookup, .update])
        | .ok updated =>
          ((some { Action := "UPDATE", Lead := l, CreatedLead := none,
                   UpdatedLead := some updated, Error := none },
            none), [.lookup, .update])

/-- `ProcessLead` proper: the Go return pair, without the call trace. -/
def ProcessLead (c : Client) (l : Lead) :
    Option ProcessResult × Option LeadError :=
  (processLeadT c l).1

/-- The counters accumulated by `runProcessCommand`, plus the reported
total (the Go code prints `len(leads)`). -/
structure Report where
  total : Nat
  created : Nat
  updated : Nat
  skipped : Nat
  errored : Nat
deriving DecidableEq, Repr

/-- One iteration of the orchestrator loop in `runProcessCommand`:
a non-nil error increments `errorCount` (`continue`), otherwise the switch
on `result.Action` increments the matching counter — `VALIDATION_ERROR`,
`API_ERROR` and the `default` branch (any other tag, including
`CREATE_ERROR`/`UPDATE_ERROR`) all increment `errorCount` and differ only in
logging. The `(none, none)` case cannot happen (`ProcessLead` always returns
a result; Go would dereference nil there) and is modelled as a no-op. -/
def tallyStep (c : Client) (acc : Report) (l : Lead) : Report :=
  match ProcessLead c l with
  | (_, some _) => { acc with errored := acc.errored + 1 }
  | (some r, none) =>
    if r.Action = "CREATE" then { acc with created := acc.created + 1 }
    else if r.Action = "UPDATE" then { acc with updated := acc.updated + 1 }
    else if r.Action = "SKIP" then { acc with skipped := acc.skipped + 1 }
    else { acc with errored := acc.errored + 1 }
  | (none, none) => acc

/-- The orchestrator loop of `runProcessCommand`: process every lead in
input order, accumulating the four counters; report `len(leads)` as total. -/
def runBatch (c : Client) (leads : List Lead) : Report :=
  let r := leads.foldl (tallyStep c) ⟨0, 0, 0, 0, 0⟩
  { r with total := leads.length }

/-- The outcome sequence the orchestrator observes: `ProcessLead` applied to
each lead, in input order (each lead is processed independently). -/
def batchOutcomes (c : Client) (leads : List Lead) :
    List (Option ProcessResult × Option LeadError) :=
  leads.map (ProcessLead c)

/-- The action tag `ProcessLead` produces for a lead (the empty string for
the impossible nil-result case). -/
def leadAction (c : Client) (l : Lead) : String :=
  match (ProcessLead c l).1 with
  | some r => r.Action
  | none => ""

/-- The production HTTP client (`api.APIClient` behind `APIClientAdapter`):
lookup behaviour is abstracted as a function, create/update are the stubs
with their respective `time.Now()` values. -/
def httpClient (lookupFn : String → Except ClientError LookupResp)
    (createNow updateNow : Nat) : Client :=
  { lookupLead := lookupFn,
    createLead := fun l => createLead l createNow,
    updateLead := fun l => updateLead l updateNow }

/-- The orchestrator counts an outcome as errored iff its tag is one of the
four error tags or is not a recognized tag at all (the switch's
`VALIDATION_ERROR`, `API_ERROR` and `default` branches all increment
`errorCount`; `CREATE_ERROR`/`UPDATE_ERROR` reach `default`). -/
def erroredTag (a : String) : Bool :=
  a == "VALIDATION_ERROR" || a == "API_ERROR" || a == "CREATE_ERROR" ||
  a == "UPDATE_ERROR" || !(a == "CREATE" || a == "UPDATE" || a == "SKIP")

/-- A concrete well-formed lead used to instantiate theorems. -/
def aliceLead : Lead :=
  { ID := "id-1", Name := "Alice Johnson", Email := "alice@example.com",
    Company := "Acme Inc", Source := "LinkedIn", CreatedAt := 0,
    UpdatedAt := none }

/-- A lead with all four business fields blank. -/
def blankLead : Lead :=
  { ID := "", Name := "", Email := "", Company := "", Source := "",
    CreatedAt := 0, UpdatedAt := none }

/-- A client whose lookup always reports the lead as not found, with the
production create/update stubs. -/
def wNotFoundClient : Client :=
  httpClient (fun _ => .ok { Found := false, lead := none }) 5 7

/-- A client whose lookup always fails with a timeout. -/
def wErrClient : Client :=
  httpClient (fun _ => .error .requestTimeout) 5 7

/-- Response script: two 429s then a 200 with a decodable body. -/
def wScriptA : Nat → HttpAttempt := fun n =>
  if n < 2 then .response 429 (.error ())
  else .response 200 (.ok { Found := true, lead := none })

/-- Response script: every attempt returns 429. -/
def wScriptB : Nat → HttpAttempt := fun _ => .response 429 (.error ())

/-- Response script: a 429 then a 500 on the first retry. -/
def wScriptC : Nat → HttpAttempt := fun n =>
  if n = 0 then .response 429 (.error ()) else .response 500 (.error ())

/-- Response script: a 429, then a connection failure on the first retry,
then a 200 on the second retry. -/
def cScriptConn : Nat → HttpAttempt := fun n =>
  match n with
  | 0 => .response 429 (.error ())
  | 1 => .connError false
  | _ => .response 200 (.ok { Found := true, lead := none })

/-! Helper lemmas shared by the claim theorems. -/

theorem processLead_shape (c : Client) (l : Lead) :
    ∃ r, ProcessLead c l = (some r, none) ∧
      ((r.Action = "CREATE" ∨ r.Action = "UPDATE" ∨ r.Action = "SKIP") ∧
        r.Error = none ∨
       (r.Action = "VALIDATION_ERROR" ∨ r.Action = "API_ERROR" ∨
        r.Action = "CREATE_ERROR" ∨ r.Action = "UPDATE_ERROR") ∧
        r.Error.isSome = true) := by
  unfold ProcessLead processLeadT
  cases hv : l.Validate with
  | some msg => exact ⟨_, rfl, Or.inr ⟨by simp, rfl⟩⟩
  | none =>
    cases hr : c.lookupLead l.Email with
    | error e => exact ⟨_, rfl, Or.inr ⟨by simp, rfl⟩⟩
    | ok resp =>
      by_cases hf : resp.Found
      · simp only [hf]
        by_cases he : l.IsEqual resp.lead
        · simp only [he]
          exact ⟨_, rfl, Or.inl ⟨by simp, rfl⟩⟩
        · simp only [Bool.not_eq_true] at he
          simp only [he]
          cases hu : c.updateLead l with
          | error e => exact ⟨_, rfl, Or.inr ⟨by simp, rfl⟩⟩
          | ok u => exact ⟨_, rfl, Or.inl ⟨by simp, rfl⟩⟩
      · simp only [Bool.not_eq_true] at hf
        simp only [hf]
        cases hc : c.createLead l with
        | error e => exact ⟨_, rfl, Or.inr ⟨by simp, rfl⟩⟩
        | ok cr => exact ⟨_, rfl, Or.inl ⟨by simp, rfl⟩⟩

theorem erroredTag_create : erroredTag "CREATE" = false := by decide

theorem erroredTag_update : erroredTag "UPDATE" = false := by decide

theorem erroredTag_skip : erroredTag "SKIP" = false := by decide

theorem erroredTag_other (a : String) (h1 : a ≠ "CREATE") (h2 : a ≠ "UPDATE")
    (h3 : a ≠ "SKIP") : erroredTag a = true := by
  simp [erroredTag, h1, h2, h3]

theorem tallyStep_eq (c : Client) (acc : Report) (l : Lead) :
    tallyStep c acc l =
      if leadAction c l = "CREATE" then { acc with created := acc.created + 1 }
      else if leadAction c l = "UPDATE" then
        { acc with updated := acc.updated + 1 }
      else if leadAction c l = "SKIP" then
        { acc with skipped := acc.skipped + 1 }
      else { acc with errored := acc.errored + 1 } := by
  obtain ⟨r, hr, _⟩ := processLead_shape c l
  simp [tallyStep, leadAction, hr]

theorem foldl_tallyStep (c : Client) : ∀ (leads : List Lead) (acc : Report),
    leads.foldl (tallyStep c) acc =
      { total := acc.total,
        created :=
          acc.created + leads.countP (fun l => leadAction c l == "CREATE"),
        updated :=
          acc.updated + leads.countP (fun l => leadAction c l == "UPDATE"),
        skipped :=
          acc.skipped + leads.countP (fun l => leadAction c l == "SKIP"),
        errored :=
          acc.errored + leads.countP (fun l => erroredTag (leadAction c l)) }
  | [], acc => by simp
  | l :: ls, acc => by
    rw [List.foldl_cons, foldl_tallyStep c ls, tallyStep_eq]
    by_cases h1 : leadAction c l = "CREATE"
    · simp [List.countP_cons, h1, erroredTag_create, Report.mk.injEq]
      omega
    by_cases h2 : leadAction c l = "UPDATE"
    · simp [List.countP_cons, h1, h2, erroredTag_update, Report.mk.injEq]
      omega
    by_cases h3 : leadAction c l = "SKIP"
    · simp [List.countP_cons, h1, h2, h3, erroredTag_skip, Report.mk.injEq]
      omega
    · simp [List.countP_cons, h1, h2, h3, erroredTag_other _ h1 h2 h3,
        Report.mk.injEq]
      omega

theorem countP_partition (c : Client) : ∀ leads : List Lead,
    leads.countP (fun l => leadAction c l == "CREATE") +
    leads.countP (fun l => leadAction c l == "UPDATE") +
    leads.countP (fun l => leadAction c l == "SKIP") +
    leads.countP (fun l => erroredTag (leadAction c l)) = leads.length
  | [] => by simp
  | l :: ls => by
    have ih := countP_partition c ls
    by_cases h1 : leadAction c l = "CREATE"
    · simp [List.countP_cons, h1, erroredTag_create]; omega
    by_cases h2 : leadAction c l = "UPDATE"
    · simp [List.countP_cons, h1, h2, erroredTag_update]; omega
    by_cases h3 : leadAction c l = "SKIP"
    · simp [List.countP_cons, h1, h2, h3, erroredTag_skip]; omega
    · simp [List.countP_cons, h1, h2, h3, erroredTag_other _ h1 h2 h3]; omega

/-! The claim theorems. -/

/-- C1: for every lead that passes validation, the Decide step of
`ProcessLead` is a function of the lookup result and business equality:
on `NotFound` exactly one create is attempted (call trace
`[lookup, create]`) and the outcome is `CREATE` carrying the created lead
on success or `CREATE_ERROR` carrying the error on failure; on
`Found` with business equality the outcome is `SKIP` and neither create nor
update is called (trace `[lookup]`); on `Found` without business equality
exactly one update is attempted (trace `[lookup, update]`) and the outcome
is `UPDATE` carrying the updated lead on success or `UPDATE_ERROR` carrying
the error on failure. -/
theorem processLead_decide_correct (c : Client) (l : Lead)
    (hv : l.Validate = none) :
    (∀ resp, c.lookupLead l.Email = .ok resp → resp.Found = false →
      (processLeadT c l).2 = [.lookup, .create] ∧
      (∀ cr, c.createLead l = .ok cr →
        ProcessLead c l = (some ⟨"CREATE", l, some cr, none, none⟩, none)) ∧
      (∀ e, c.createLead l = .error e →
        ProcessLead c l =
          (some ⟨"CREATE_ERROR", l, none, none, some (.apiError e)⟩, none))) ∧
    (∀ resp, c.lookupLead l.Email = .ok resp → resp.Found = true →
      l.IsEqual resp.lead = true →
      (processLeadT c l).2 = [.lookup] ∧
      ProcessLead c l = (some ⟨"SKIP", l, none, none, none⟩, none)) ∧
    (∀ resp, c.lookupLead l.Email = .ok resp → resp.Found = true →
      l.IsEqual resp.lead = false →
      (processLeadT c l).2 = [.lookup, .update] ∧
      (∀ u, c.updateLead l = .ok u →
        ProcessLead c l = (some ⟨"UPDATE", l, none, some u, none⟩, none)) ∧
      (∀ e, c.updateLead l = .error e →
        ProcessLead c l =
          (some ⟨"UPDATE_ERROR", l, none, none, some (.apiError e)⟩, none))) := by
  refine ⟨?_, ?_, ?_⟩
  · intro resp hr hf
    refine ⟨?_, ?_, ?_⟩
    · cases hc : c.createLead l <;>
        simp [ProcessLead, processLeadT, hv, hr, hf, hc]
    · intro cr hc; simp [ProcessLead, processLeadT, hv, hr, hf, hc]
    · intro e hc; simp [ProcessLead, processLeadT, hv, hr, hf, hc]
  · intro resp hr hf he
    constructor <;> simp [ProcessLead, processLeadT, hv, hr, hf, he]
  · intro resp hr hf he
    refine ⟨?_, ?_, ?_⟩
    · cases hu : c.updateLead l <;>
        simp [ProcessLead, processLeadT, hv, hr, hf, he, hu]
    · intro u hu; simp [ProcessLead, processLeadT, hv, hr, hf, he, hu]
    · intro e hu; simp [ProcessLead, processLeadT, hv, hr, hf, he, hu]

/-- Witness for C1: a valid lead against a not-found lookup with the stub
create yields the `CREATE` outcome carrying the created lead. -/
theorem processLead_decide_correct_witness :
    ProcessLead wNotFoundClient aliceLead =
      (some ⟨"CREATE", aliceLead,
        some ⟨"generated-id", "Alice Johnson", "alice@example.com",
          "Acme Inc", "LinkedIn", 5, none⟩, none, none⟩, none) :=
  ((processLead_decide_correct wNotFoundClient aliceLead (by rfl)).1
      { Found := false, lead := none } rfl rfl).2.1
    ⟨"generated-id", "Alice Johnson", "alice@example.com", "Acme Inc",
      "LinkedIn", 5, none⟩ rfl

/-- C2: the lookup retry protocol. For any response script whose first three
attempts are 429, 429, then a decodable 200, the client returns the 200
result after exactly the two delays 100 ms and 200 ms; for any script
answering 429 to every one of the four attempts, the client returns the
rate-limit-exhaustion error (`API returned status 429 after 3 retries`)
after exactly three retries, i.e. three delays 100, 200, 400 ms and four
total attempts. -/
theorem lookupLead_retry_protocol :
    (∀ (script : Nat → HttpAttempt) (b0 b1 : Except Unit LookupResp)
        (r : LookupResp),
      script 0 = .response 429 b0 → script 1 = .response 429 b1 →
      script 2 = .response 200 (.ok r) →
      lookupLead script = (.ok r, [100, 200])) ∧
    (∀ (script : Nat → HttpAttempt) (b : Nat → Except Unit LookupResp),
      (∀ i, i < 4 → script i = .response 429 (b i)) →
      lookupLead script =
        (.error (.statusAfterRetries 429 3), [100, 200, 400]) ∧
      ClientError.isRateLimitExhausted (.statusAfterRetries 429 3) = true) := by
  have hr : List.range maxRetries = [0, 1, 2] := rfl
  constructor
  · intro script b0 b1 r h0 h1 h2
    simp only [lookupLead, handleRateLimit, hr, rateLimitLoop, h0, h1, h2,
      maxRetries, baseDelay]
    norm_num
  · intro script b h
    refine ⟨?_, rfl⟩
    simp only [lookupLead, handleRateLimit, hr, rateLimitLoop,
      h 0 (by norm_num), h 1 (by norm_num), h 2 (by norm_num),
      h 3 (by norm_num), maxRetries, baseDelay]
    norm_num

/-- Witness for C2: the two protocol branches at concrete scripts. -/
theorem lookupLead_retry_protocol_witness :
    lookupLead wScriptA = (.ok { Found := true, lead := none }, [100, 200]) ∧
    lookupLead wScriptB =
      (.error (.statusAfterRetries 429 3), [100, 200, 400]) :=
  ⟨lookupLead_retry_protocol.1 wScriptA (.error ()) (.error ())
      { Found := true, lead := none } rfl rfl rfl,
   (lookupLead_retry_protocol.2 wScriptB (fun _ => .error ())
      (fun _ _ => rfl)).1⟩

/-- C3 counterexample: during the retry loop, a connection failure on the
first retry is NOT surfaced immediately — the loop sleeps again and issues
a further retry, and here returns that retry's 200 result. The script has
attempt 0 answer 429, attempt 1 fail with a connection error, attempt 2
answer 200; the claim says the connection error is surfaced with no further
retry, but the client returns success after two delays. -/
theorem lookupLead_conn_failure_retried_counterexample :
    cScriptConn 1 = .connError false ∧
    lookupLead cScriptConn = (.ok { Found := true, lead := none }, [100, 200]) :=
  ⟨rfl, rfl⟩

/-- C3 amended: if a retried attempt returns a non-200, non-429 status, that
error is surfaced immediately and no further retry is made (shown for the
first, second and third retry); a connection failure on a retried attempt
is instead retried again (shown: conn failure on retry 1 followed by a 200
on retry 2 returns that 200), and is surfaced, wrapped as a
failed-after-retries error, only when it occurs on the last retry. -/
theorem lookupLead_retry_error_surfacing :
    (∀ (script : Nat → HttpAttempt) (b0 b : Except Unit LookupResp) (s : Nat),
      script 0 = .response 429 b0 → script 1 = .response s b →
      s ≠ 200 → s ≠ 429 →
      lookupLead script = (.error (.statusAfterRetries s 1), [100])) ∧
    (∀ (script : Nat → HttpAttempt) (b0 b1 b : Except Unit LookupResp)
        (s : Nat),
      script 0 = .response 429 b0 → script 1 = .response 429 b1 →
      script 2 = .response s b → s ≠ 200 → s ≠ 429 →
      lookupLead script = (.error (.statusAfterRetries s 2), [100, 200])) ∧
    (∀ (script : Nat → HttpAttempt) (b0 b1 b2 b : Except Unit LookupResp)
        (s : Nat),
      script 0 = .response 429 b0 → script 1 = .response 429 b1 →
      script 2 = .response 429 b2 → script 3 = .response s b →
      s ≠ 200 → s ≠ 429 →
      lookupLead script =
        (.error (.statusAfterRetries s 3), [100, 200, 400])) ∧
    (∀ (script : Nat → HttpAttempt) (b0 : Except Unit LookupResp) (t : Bool)
        (r : LookupResp),
      script 0 = .response 429 b0 → script 1 = .connError t →
      script 2 = .response 200 (.ok r) →
      lookupLead script = (.ok r, [100, 200])) ∧
    (∀ (script : Nat → HttpAttempt) (b0 b1 b2 : Except Unit LookupResp)
        (t : Bool),
      script 0 = .response 429 b0 → script 1 = .response 429 b1 →
      script 2 = .response 429 b2 → script 3 = .connError t →
      lookupLead script =
        (.error (.failedAfterRetries 3 t), [100, 200, 400])) := by
  have hr : List.range maxRetries = [0, 1, 2] := rfl
  refine ⟨?_, ?_, ?_, ?_, ?_⟩
  · intro script b0 b s h0 h1 hs200 hs429
    simp only [lookupLead, handleRateLimit, hr, rateLimitLoop, h0, h1,
      maxRetries, baseDelay]
    simp [hs200, hs429]
  · intro script b0 b1 b s h0 h1 h2 hs200 hs429
    simp only [lookupLead, handleRateLimit, hr, rateLimitLoop, h0, h1, h2,
      maxRetries, baseDelay]
    simp [hs200, hs429]
  · intro script b0 b1 b2 b s h0 h1 h2 h3 hs200 hs429
    simp only [lookupLead, handleRateLimit, hr, rateLimitLoop, h0, h1, h2, h3,
      maxRetries, baseDelay]
    simp [hs200, hs429]
  · intro script b0 t r h0 h1 h2
    simp only [lookupLead, handleRateLimit, hr, rateLimitLoop, h0, h1, h2,
      maxRetries, baseDelay]
    norm_num
  · intro script b0 b1 b2 t h0 h1 h2 h3
    simp only [lookupLead, handleRateLimit, hr, rateLimitLoop, h0, h1, h2, h3,
      maxRetries, baseDelay]
    norm_num

/-- Witness for C3 amended: a 500 on the first retry is surfaced at once. -/
theorem lookupLead_retry_error_surfacing_witness :
    lookupLead wScriptC = (.error (.statusAfterRetries 500 1), [100]) :=
  lookupLead_retry_error_surfacing.1 wScriptC (.error ()) (.error ()) 500
    rfl rfl (by decide) (by decide)

/-- C4: a lead with at least one validation error yields the terminal
`VALIDATION_ERROR` outcome carrying the aggregated message, and no client
operation (lookup, create or update) is invoked: the call trace is empty. -/
theorem processLead_validation_terminal (c : Client) (l : Lead) (msg : String)
    (hv : l.Validate = some msg) :
    ProcessLead c l =
      (some ⟨"VALIDATION_ERROR", l, none, none,
        some (.validationError msg)⟩, none) ∧
    (processLeadT c l).2 = [] := by
  constructor <;> simp [ProcessLead, processLeadT, hv]

/-- Witness for C4: the all-blank lead is rejected with the aggregated
message and zero client calls. -/
theorem processLead_validation_terminal_witness :
    ProcessLead wNotFoundClient blankLead =
      (some ⟨"VALIDATION_ERROR", blankLead, none, none,
        some (.validationError
          ("name is required; valid email is required; company is required; " ++
           "source must be one of: LinkedIn, Website, Conference, Referral, " ++
           "Webinar, Twitter"))⟩, none) ∧
    (processLeadT wNotFoundClient blankLead).2 = [] :=
  processLead_validation_terminal wNotFoundClient blankLead _ (by rfl)

/-- C5: `Validate` checks all four rules independently and collects every
violated rule's message into one joined diagnostic: a lead validates with no
error iff no rule is violated; each rule's message appears in the collected
list iff that rule is violated; a non-empty collection is reported joined by
`"; "`; and the all-blank lead produces all four messages. -/
theorem validate_exhaustive (l : Lead) :
    (l.Validate = none ↔ l.validationErrors = []) ∧
    (l.validationErrors = [] ↔
      (trimSpace l.Name ≠ "" ∧ isValidEmail l.Email = true ∧
       trimSpace l.Company ≠ "" ∧ isValidSource l.Source = true)) ∧
    ("name is required" ∈ l.validationErrors ↔ trimSpace l.Name = "") ∧
    ("valid email is required" ∈ l.validationErrors ↔
      isValidEmail l.Email = false) ∧
    ("company is required" ∈ l.validationErrors ↔
      trimSpace l.Company = "") ∧
    (("source must be one of: LinkedIn, Website, Conference, Referral, " ++
        "Webinar, Twitter") ∈ l.validationErrors ↔
      isValidSource l.Source = false) ∧
    (l.validationErrors ≠ [] →
      l.Validate = some (String.intercalate "; " l.validationErrors)) ∧
    Lead.Validate blankLead =
      some ("name is required; valid email is required; company is " ++
        "required; source must be one of: LinkedIn, Website, Conference, " ++
        "Referral, Webinar, Twitter") := by
  by_cases h1 : trimSpace l.Name = "" <;>
  by_cases h2 : isValidEmail l.Email <;>
  by_cases h3 : trimSpace l.Company = "" <;>
  by_cases h4 : isValidSource l.Source <;>
  simp_all [Lead.Validate, Lead.validationErrors, blankLead] <;> decide

/-- Witness for C5: the blank lead's non-empty error list is reported as the
joined message. -/
theorem validate_exhaustive_witness :
    Lead.Validate blankLead =
      some (String.intercalate "; " blankLead.validationErrors) :=
  (validate_exhaustive blankLead).2.2.2.2.2.2.1 (by decide)

/-- C6: `IsEqual` is business equality — true iff the two leads agree on
name, email, company and source; it is reflexive and symmetric; it ignores
any difference in id, createdAt or updatedAt; changing exactly one business
field makes it false; and a nil counterpart compares unequal. -/
theorem isEqual_business_equality (a b : Lead) :
    (a.IsEqual (some b) = true ↔
      (a.Name = b.Name ∧ a.Email = b.Email ∧ a.Company = b.Company ∧
       a.Source = b.Source)) ∧
    a.IsEqual (some a) = true ∧
    (a.IsEqual (some b) = true ↔ b.IsEqual (some a) = true) ∧
    a.IsEqual none = false ∧
    (∀ i ca ua,
      a.IsEqual (some { b with ID := i, CreatedAt := ca, UpdatedAt := ua }) =
        a.IsEqual (some b)) ∧
    (∀ n, n ≠ a.Name → a.IsEqual (some { a with Name := n }) = false) ∧
    (∀ e, e ≠ a.Email → a.IsEqual (some { a with Email := e }) = false) ∧
    (∀ co, co ≠ a.Company →
      a.IsEqual (some { a with Company := co }) = false) ∧
    (∀ s, s ≠ a.Source → a.IsEqual (some { a with Source := s }) = false) := by
  refine ⟨?_, ?_, ?_, rfl, ?_, ?_, ?_, ?_, ?_⟩
  · simp [Lead.IsEqual, and_assoc]
  · simp [Lead.IsEqual]
  · simp [Lead.IsEqual]; tauto
  · intro i ca ua; rfl
  · intro n h; simp [Lead.IsEqual, Ne.symm h]
  · intro e h; simp [Lead.IsEqual, Ne.symm h]
  · intro co h; simp [Lead.IsEqual, Ne.symm h]
  · intro s h; simp [Lead.IsEqual, Ne.symm h]

/-- Witness for C6: changing only the name of a lead breaks business
equality. -/
theorem isEqual_business_equality_witness :
    Lead.IsEqual aliceLead (some { aliceLead with Name := "Bob" }) = false :=
  (isEqual_business_equality aliceLead aliceLead).2.2.2.2.2.1 "Bob" (by decide)

/-- C7: for every input lead and every client behaviour, `ProcessLead`
returns a non-nil tagged outcome and a nil Go error — no error escapes to
the orchestrator; the outcome carries an error detail iff its tag is one of
the four error tags; and an error from lookup on a valid lead is converted
into the `API_ERROR` outcome carrying it. -/
theorem processLead_no_error_escape (c : Client) (l : Lead) :
    (∃ r, ProcessLead c l = (some r, none) ∧
      (r.Action = "CREATE" ∨ r.Action = "UPDATE" ∨ r.Action = "SKIP" ∨
       r.Action = "VALIDATION_ERROR" ∨ r.Action = "API_ERROR" ∨
       r.Action = "CREATE_ERROR" ∨ r.Action = "UPDATE_ERROR") ∧
      (r.Error.isSome = true ↔
        (r.Action = "VALIDATION_ERROR" ∨ r.Action = "API_ERROR" ∨
         r.Action = "CREATE_ERROR" ∨ r.Action = "UPDATE_ERROR"))) ∧
    (∀ e, l.Validate = none → c.lookupLead l.Email = .error e →
      ProcessLead c l =
        (some ⟨"API_ERROR", l, none, none, some (.apiError e)⟩, none)) := by
  constructor
  · obtain ⟨r, hr, hcases⟩ := processLead_shape c l
    refine ⟨r, hr, ?_, ?_⟩
    · rcases hcases with ⟨h | h | h, _⟩ | ⟨h | h | h | h, _⟩ <;> tauto
    · rcases hcases with ⟨hc, he⟩ | ⟨hc, he⟩
      · constructor
        · intro hs; rw [he] at hs; simp at hs
        · rintro (ha | ha | ha | ha) <;>
            rcases hc with h | h | h <;> rw [h] at ha <;> exact absurd ha (by decide)
      · exact ⟨fun _ => hc, fun _ => he⟩
  · intro e hv hr
    simp [ProcessLead, processLeadT, hv, hr]

/-- Witness for C7: a timing-out lookup on a valid lead becomes the
`API_ERROR` outcome. -/
theorem processLead_no_error_escape_witness :
    ProcessLead wErrClient aliceLead =
      (some ⟨"API_ERROR", aliceLead, none, none,
        some (.apiError .requestTimeout)⟩, none) :=
  (processLead_no_error_escape wErrClient aliceLead).2 .requestTimeout
    (by rfl) rfl

/-- C8: for every batch, the orchestrator processes all N leads in input
order (the outcome sequence has length N and its i-th entry is
`ProcessLead` of the i-th lead, so no per-lead failure aborts the rest),
the reported total is N, and the four counters partition the N outcomes,
`errored` counting exactly the outcomes whose tag is `VALIDATION_ERROR`,
`API_ERROR`, `CREATE_ERROR`, `UPDATE_ERROR` or unrecognized
(`erroredTag`). -/
theorem runBatch_tally_partition (c : Client) (leads : List Lead) :
    runBatch c leads =
      { total := leads.length,
        created := leads.countP (fun l => leadAction c l == "CREATE"),
        updated := leads.countP (fun l => leadAction c l == "UPDATE"),
        skipped := leads.countP (fun l => leadAction c l == "SKIP"),
        errored := leads.countP (fun l => erroredTag (leadAction c l)) } ∧
    (runBatch c leads).created + (runBatch c leads).updated +
      (runBatch c leads).skipped + (runBatch c leads).errored =
        leads.length ∧
    (runBatch c leads).total = leads.length ∧
    (batchOutcomes c leads).length = leads.length ∧
    (∀ i : Fin leads.length,
      (batchOutcomes c leads).get (Fin.cast (by simp [batchOutcomes]) i) =
        ProcessLead c (leads.get i)) := by
  have hb : runBatch c leads =
      { total := leads.length,
        created := leads.countP (fun l => leadAction c l == "CREATE"),
        updated := leads.countP (fun l => leadAction c l == "UPDATE"),
        skipped := leads.countP (fun l => leadAction c l == "SKIP"),
        errored := leads.countP (fun l => erroredTag (leadAction c l)) } := by
    rw [runBatch, foldl_tallyStep c leads]
    simp
  refine ⟨hb, ?_, ?_, by simp [batchOutcomes], ?_⟩
  · rw [hb]; exact countP_partition c leads
  · rw [hb]
  · intro i; simp [batchOutcomes]

/-- C9: the lead returned by `updateLead` keeps the input's id and
createdAt, and has updatedAt set. -/
theorem updateLead_frame (l : Lead) (now : Nat) :
    ∃ u, updateLead l now = .ok u ∧ u.ID = l.ID ∧
      u.CreatedAt = l.CreatedAt ∧ u.UpdatedAt = some now ∧
      u.UpdatedAt.isSome = true :=
  ⟨_, rfl, rfl, rfl, rfl, rfl⟩

/-- C10: the production create/update operations are network-free stubs that
always succeed — create returns the constant id `"generated-id"`
(discarding the input's locally generated id) with the input's business
fields, and update returns the input's fields with updatedAt set — so with
the production client the `CREATE_ERROR` and `UPDATE_ERROR` outcomes of
`ProcessLead` are unreachable. -/
theorem stub_clients_no_error
    (lookupFn : String → Except ClientError LookupResp) (cn un : Nat)
    (l : Lead) :
    (∃ cr, createLead l cn = .ok cr ∧ cr.ID = "generated-id" ∧
      cr.Name = l.Name ∧ cr.Email = l.Email ∧ cr.Company = l.Company ∧
      cr.Source = l.Source ∧ cr.CreatedAt = cn ∧ cr.UpdatedAt = none) ∧
    (∃ u, updateLead l un = .ok u ∧ u.ID = l.ID ∧ u.Name = l.Name ∧
      u.Email = l.Email ∧ u.Company = l.Company ∧ u.Source = l.Source ∧
      u.CreatedAt = l.CreatedAt ∧ u.UpdatedAt = some un) ∧
    (∀ r, (ProcessLead (httpClient lookupFn cn un) l).1 = some r →
      r.Action ≠ "CREATE_ERROR" ∧ r.Action ≠ "UPDATE_ERROR") := by
  refine ⟨⟨_, rfl, rfl, rfl, rfl, rfl, rfl, rfl, rfl⟩,
    ⟨_, rfl, rfl, rfl, rfl, rfl, rfl, rfl, rfl⟩, ?_⟩
  intro r hr
  unfold ProcessLead processLeadT at hr
  cases hv : l.Validate with
  | some msg =>
    simp only [hv] at hr
    cases hr
    exact ⟨by simp, by simp⟩
  | none =>
    simp only [hv] at hr
    cases hl : lookupFn l.Email with
    | error e =>
      simp only [httpClient, hl] at hr
      cases hr
      exact ⟨by simp, by simp⟩
    | ok resp =>
      simp only [httpClient, hl] at hr
      by_cases hf : resp.Found
      · simp only [hf] at hr
        by_cases he : l.IsEqual resp.lead
        · simp only [he] at hr
          cases hr
          exact ⟨by simp, by simp⟩
        · simp only [Bool.not_eq_true] at he
          simp only [he, updateLead] at hr
          cases hr
          exact ⟨by simp, by simp⟩
      · simp only [Bool.not_eq_true] at hf
        simp only [hf, createLead] at hr
        cases hr
        exact ⟨by simp, by simp⟩

/-- Witness for C10: with the production stubs, a valid lead that is not
found remotely yields an outcome whose tag is neither `CREATE_ERROR` nor
`UPDATE_ERROR`. -/
theorem stub_clients_no_error_witness :
    ProcessResult.Action ⟨"CREATE", aliceLead,
        some ⟨"generated-id", "Alice Johnson", "alice@example.com",
          "Acme Inc", "LinkedIn", 5, none⟩, none, none⟩ ≠ "CREATE_ERROR" ∧
    ProcessResult.Action ⟨"CREATE", aliceLead,
        some ⟨"generated-id", "Alice Johnson", "alice@example.com",
          "Acme Inc", "LinkedIn", 5, none⟩, none, none⟩ ≠ "UPDATE_ERROR" :=
  stub_clients_no_error (fun _ => .ok { Found := false, lead := none }) 5 7
    aliceLead |>.2.2
    ⟨"CREATE", aliceLead,
      some ⟨"generated-id", "Alice Johnson", "alice@example.com",
        "Acme Inc", "LinkedIn", 5, none⟩, none, none⟩ (by rfl)

end LeadProc
